import Mathlib

/-!
Verification of `src/agent/device.py` (module `agent.device`), a client-side
wrapper around a video-surveillance server's HTTP control API.

The Python module is shallowly embedded: JSON values become an inductive
`Json` type, Python dictionaries become association lists with first-match
lookup, Python exceptions (`KeyError`, `ValueError`, `TypeError`, transport
failures from the client collaborator) become an explicit `PyError` carried
in `Except`, and the external `client.get_state` collaborator becomes a
function from a relative path string to `Except PyError Json`.  Every
operation of `Device` returns the list of paths it requested from the
client together with the state of the device object after the call
(unchanged when an exception propagates, since the Python mutation is a
single dictionary assignment performed after the request) and its
`Except` outcome.
-/

namespace Agent

/-- Errors a Python-level operation of the module can raise: dictionary
`KeyError` (carrying the missing key), `ValueError` (carrying the message),
`TypeError` from subscripting or converting a non-dictionary value, and an
opaque transport or decoding failure raised by the external client. -/
inductive PyError where
  | keyError : String → PyError
  | valueError : String → PyError
  | typeError : PyError
  | clientError : String → PyError
deriving DecidableEq, Repr

/-- Decoded JSON values, as returned by `client.get_state`.  Objects are
association lists of key/value pairs with unique keys, mirroring Python
dictionaries. -/
inductive Json where
  | null : Json
  | bool : Bool → Json
  | num : Int → Json
  | str : String → Json
  | arr : List Json → Json
  | obj : List (String × Json) → Json

/-- First-match lookup in a dictionary's association list (`d[k]` read). -/
def lookupKey : List (String × Json) → String → Option Json
  | [], _ => none
  | (k1, v) :: rest, k => if k1 = k then some v else lookupKey rest k

/-- Dictionary assignment `d[k] = v`: replace the value in place when the
key is present, append the pair otherwise. -/
def setKeyList : List (String × Json) → String → Json → List (String × Json)
  | [], k, v => [(k, v)]
  | (k1, v1) :: rest, k, v =>
      if k1 = k then (k, v) :: rest else (k1, v1) :: setKeyList rest k v

/-- `j[k]` as an `Option`: `some` only when `j` is an object holding `k`. -/
def Json.getKey : Json → String → Option Json
  | .obj fields, k => lookupKey fields k
  | _, _ => none

/-- `j[k]` with Python error semantics: `KeyError` when the key is absent
from an object, `TypeError` when `j` is not subscriptable by a string. -/
def Json.getKeyE : Json → String → Except PyError Json
  | .obj fields, k =>
      match lookupKey fields k with
      | some v => .ok v
      | none => .error (.keyError k)
  | _, _ => .error .typeError

/-- `j[k] = v` on an object; on any other value the assignment raising in
Python is handled by the callers, which only reach this after a successful
object lookup. -/
def Json.setKey : Json → String → Json → Json
  | .obj fields, k, v => .obj (setKeyList fields k v)
  | j, _, _ => j

/-- Python `int(x)` on a decoded JSON value: integers pass through,
booleans become 0/1, numeric strings are parsed (`ValueError` otherwise),
anything else is a `TypeError`. -/
def Json.toPyInt : Json → Except PyError Int
  | .num n => .ok n
  | .bool b => .ok (if b then 1 else 0)
  | .str s =>
      match s.toInt? with
      | some n => .ok n
      | none => .error (.valueError s)
  | _ => .error .typeError

/-- Python `x != -1` where `x` is a decoded JSON value: only a number equal
to `-1` (or a boolean numerically equal, which cannot happen for `-1`)
compares equal to the integer; this is the equality half. -/
def Json.pyEqInt : Json → Int → Bool
  | .num n, m => n == m
  | .bool b, m => (if b then (1 : Int) else 0) == m
  | _, _ => false

/-- `TimePeriod`: a period of time to check for events
(`class TimePeriod(Enum)` in the source). -/
inductive TimePeriod where
  | ALL : TimePeriod
  | HOUR : TimePeriod
  | DAY : TimePeriod
  | WEEK : TimePeriod
  | MONTH : TimePeriod
deriving DecidableEq, Repr

/-- `TimePeriod.period`: the first component of the variant's value. -/
def TimePeriod.period : TimePeriod → String
  | .ALL => "all"
  | .HOUR => "hour"
  | .DAY => "day"
  | .WEEK => "week"
  | .MONTH => "month"

/-- `TimePeriod.title`: the second component of the variant's value. -/
def TimePeriod.title : TimePeriod → String
  | .ALL => "Events"
  | .HOUR => "Events Last Hour"
  | .DAY => "Events Last Day"
  | .WEEK => "Events Last Week"
  | .MONTH => "Events Last Month"

/-- Iteration order of `for time_period in TimePeriod`: definition order of
the enum members. -/
def TimePeriod.members : List TimePeriod :=
  [.ALL, .HOUR, .DAY, .WEEK, .MONTH]

/-- `TimePeriod.get_time_period(value)`: scan the members for one whose
`period` equals `value`; raise `ValueError` with the formatted message when
none matches. -/
def TimePeriod.get_time_period (value : String) : Except PyError TimePeriod :=
  match TimePeriod.members.find? (fun tp => tp.period == value) with
  | some tp => .ok tp
  | none => .error (.valueError (value ++ " is not a valid TimePeriod"))

/-- The external client collaborator: `get_state(path)` returns decoded
JSON or raises a transport/decoding error. -/
abbrev Client := String → Except PyError Json

/-- A `Device` instance: the cached snapshot `_raw_result` together with
the identity integers `_oid` and `_ot` fixed at construction.  The client
is passed to each operation rather than stored, since Lean functions have
no mutable fields; the Python object stores it once and never changes it. -/
structure Device where
  raw_result : Json
  oid : Int
  ot : Int

/-- `Device.__init__(client, raw_result)`: store the snapshot and compute
`_oid = int(raw_result['id'])`, `_ot = int(raw_result['typeID'])`. -/
def Device.make (raw : Json) : Except PyError Device :=
  match raw.getKeyE "id" with
  | .error e => .error e
  | .ok idv =>
    match idv.toPyInt with
    | .error e => .error e
    | .ok oid =>
      match raw.getKeyE "typeID" with
      | .error e => .error e
      | .ok tv =>
        match tv.toPyInt with
        | .error e => .error e
        | .ok ot => .ok { raw_result := raw, oid := oid, ot := ot }

/-- `Device.id` property. -/
def Device.id (d : Device) : Int := d.oid

/-- `Device.typeID` property. -/
def Device.typeID (d : Device) : Int := d.ot

/-- `Device.name` property: `self._raw_result['name']`. -/
def Device.name (d : Device) : Except PyError Json :=
  d.raw_result.getKeyE "name"

/-- `Device.raw_result` property. -/
def Device.raw (d : Device) : Json := d.raw_result

/-- `Device.mjpeg_image_url` property. -/
def Device.mjpeg_image_url (d : Device) : String :=
  "video.mjpg?oid=" ++ toString d.oid

/-- `Device.mp4_url` property. -/
def Device.mp4_url (d : Device) : String :=
  "video.mp4?oid=" ++ toString d.oid

/-- `Device.webm_url` property. -/
def Device.webm_url (d : Device) : String :=
  "video.webm?oid=" ++ toString d.oid

/-- `Device.still_image_url` property. -/
def Device.still_image_url (d : Device) : String :=
  "grab.jpg?oid=" ++ toString d.oid

/-- Shared shape of the state accessors: `self._raw_result['data'][k]`. -/
def Device.dataField (d : Device) (k : String) : Except PyError Json :=
  match d.raw_result.getKeyE "data" with
  | .error e => .error e
  | .ok dataVal => dataVal.getKeyE k

/-- `Device.recording` property: `self._raw_result['data']['recording']`. -/
def Device.recording (d : Device) : Except PyError Json :=
  d.dataField "recording"

/-- `Device.alerted` property: `self._raw_result['data']['alerted']`. -/
def Device.alerted (d : Device) : Except PyError Json :=
  d.dataField "alerted"

/-- `Device.online` property: `self._raw_result['data']['online']`. -/
def Device.online (d : Device) : Except PyError Json :=
  d.dataField "online"

/-- `Device.alerts_active` property:
`self._raw_result['data']['alertsActive']`. -/
def Device.alerts_active (d : Device) : Except PyError Json :=
  d.dataField "alertsActive"

/-- `Device.connected` property: `self._raw_result['data']['connected']`. -/
def Device.connected (d : Device) : Except PyError Json :=
  d.dataField "connected"

/-- `Device.has_ptz` property:
`self._ot == 2 and self._raw_result['data']['ptzid'] != -1`, with Python's
short-circuiting `and`. -/
def Device.has_ptz (d : Device) : Except PyError Bool :=
  if d.ot = 2 then
    match d.dataField "ptzid" with
    | .error e => .error e
    | .ok p => .ok (!(p.pyEqInt (-1)))
  else
    .ok false

/-- `'command.cgi?cmd={cmd}&oid={0}&ot={1}'.format(oid, ot)`. -/
def commandPath (cmd : String) (oid ot : Int) : String :=
  "command.cgi?cmd=" ++ cmd ++ "&oid=" ++ toString oid ++ "&ot=" ++ toString ot

/-- `'eventcounts.json?oid={0}&ot={1}&secs={2}'.format(oid, ot, secs)`. -/
def eventsPath (oid ot secs : Int) : String :=
  "eventcounts.json?oid=" ++ toString oid ++ "&ot=" ++ toString ot
    ++ "&secs=" ++ toString secs

/-- `self._raw_result['data'][field] = value`: read the `data` dictionary
(raising `KeyError`/`TypeError` exactly where Python would) and update the
field in place. -/
def Device.setDataField (d : Device) (field : String) (value : Json) :
    Except PyError Device :=
  match d.raw_result.getKeyE "data" with
  | .error e => .error e
  | .ok (.obj dfields) =>
      .ok { d with
        raw_result :=
          d.raw_result.setKey "data" (.obj (setKeyList dfields field value)) }
  | .ok _ => .error .typeError

/-- Shared body of the six command methods: issue one `command.cgi` request
and, if it does not raise, perform the optimistic single-field cache
update.  The returned triple is (paths requested, device state after the
call returns or raises, outcome). -/
def Device.runCommand (d : Device) (client : Client) (cmd field : String)
    (value : Bool) : List String × Device × Except PyError Unit :=
  let path := commandPath cmd d.oid d.ot
  match client path with
  | .error e => ([path], d, .error e)
  | .ok _ =>
      match d.setDataField field (.bool value) with
      | .error e => ([path], d, .error e)
      | .ok d2 => ([path], d2, .ok ())

/-- `Device.enable`: request `switchOn`, then set `data['online'] = True`. -/
def Device.enable (d : Device) (client : Client) :
    List String × Device × Except PyError Unit :=
  d.runCommand client "switchOn" "online" true

/-- `Device.disable`: request `switchOff`, then set
`data['online'] = False`. -/
def Device.disable (d : Device) (client : Client) :
    List String × Device × Except PyError Unit :=
  d.runCommand client "switchOff" "online" false

/-- `Device.record`: request `record`, then set
`data['recording'] = True`. -/
def Device.record (d : Device) (client : Client) :
    List String × Device × Except PyError Unit :=
  d.runCommand client "record" "recording" true

/-- `Device.record_stop`: request `recordStop`, then set
`data['recording'] = False`. -/
def Device.record_stop (d : Device) (client : Client) :
    List String × Device × Except PyError Unit :=
  d.runCommand client "recordStop" "recording" false

/-- `Device.alerts_on`: request `alertsOn`, then set
`data['alertsActive'] = True`. -/
def Device.alerts_on (d : Device) (client : Client) :
    List String × Device × Except PyError Unit :=
  d.runCommand client "alertsOn" "alertsActive" true

/-- `Device.alerts_off`: request `alertsOff`, then set
`data['alertsActive'] = False`. -/
def Device.alerts_off (d : Device) (client : Client) :
    List String × Device × Except PyError Unit :=
  d.runCommand client "alertsOff" "alertsActive" false

/-- `Device.update`: request `getObject` and replace the whole cached
snapshot with the response. -/
def Device.update (d : Device) (client : Client) :
    List String × Device × Except PyError Unit :=
  let path := commandPath "getObject" d.oid d.ot
  match client path with
  | .error e => ([path], d, .error e)
  | .ok j => ([path], { d with raw_result := j }, .ok ())

/-- `Device.get_events(time_period)`: compute `date_filter` through the
source's sequence of non-exclusive `if` statements starting from the
20-year default, issue the `eventcounts.json` request, and return the
`count` field of the response. -/
def Device.get_events (d : Device) (client : Client) (tp : TimePeriod) :
    List String × Device × Except PyError Json :=
  let date_filter : Int := 3600 * 24 * 365 * 20
  let date_filter := if tp = TimePeriod.HOUR then 3600 else date_filter
  let date_filter := if tp = TimePeriod.DAY then 3600 * 24 else date_filter
  let date_filter := if tp = TimePeriod.WEEK then 3600 * 24 * 7 else date_filter
  let date_filter := if tp = TimePeriod.MONTH then 3600 * 24 * 30 else date_filter
  let path := eventsPath d.oid d.ot date_filter
  match client path with
  | .error e => ([path], d, .error e)
  | .ok resp =>
      match resp.getKeyE "count" with
      | .error e => ([path], d, .error e)
      | .ok c => ([path], d, .ok c)

/-- The frame property of one command method: exactly one client request
was issued, the identity integers are unchanged, every top-level snapshot
key other than `data` is unchanged, and the `data` block holds `value` at
`field` and is unchanged at every other key. -/
def commandFrameOK (d : Device) (dfields : List (String × Json))
    (field : String) (value : Bool)
    (res : List String × Device × Except PyError Unit) : Prop :=
  res.1.length = 1
  ∧ res.2.1.id = d.id
  ∧ res.2.1.typeID = d.typeID
  ∧ (∀ k, k ≠ "data" → res.2.1.raw_result.getKey k = d.raw_result.getKey k)
  ∧ ∃ dfields2,
      res.2.1.raw_result.getKey "data" = some (.obj dfields2)
      ∧ lookupKey dfields2 field = some (.bool value)
      ∧ ∀ k2, k2 ≠ field → lookupKey dfields2 k2 = lookupKey dfields k2

/-- The `data` association list of the concrete test device `dev0`. -/
def dev0data : List (String × Json) :=
  [("online", Json.bool false), ("recording", Json.bool false),
   ("alertsActive", Json.bool false), ("ptzid", Json.num 3)]

/-- The top-level association list of the concrete test device `dev0`. -/
def dev0fields : List (String × Json) :=
  [("id", Json.num 5), ("typeID", Json.num 2), ("name", Json.str "Cam1"),
   ("data", Json.obj dev0data)]

/-- A concrete well-formed device, as in the spec's example snapshot. -/
def dev0 : Device :=
  { raw_result := Json.obj dev0fields, oid := 5, ot := 2 }

/-- A concrete device whose snapshot has no `data` key. -/
def devNoData : Device :=
  { raw_result := Json.obj [("id", Json.num 9), ("typeID", Json.num 1)],
    oid := 9, ot := 1 }

/-- A concrete device whose `data` block omits the optional state keys
`recording`, `alerted`, `online` and `alertsActive`. -/
def devMissing : Device :=
  { raw_result := Json.obj
      [("id", Json.num 1), ("typeID", Json.num 2),
       ("data", Json.obj [("ptzid", Json.num (-1))])],
    oid := 1, ot := 2 }

/-- A concrete device with `typeID = 1` (not a camera). -/
def devType1 : Device :=
  { raw_result := Json.obj
      [("id", Json.num 3), ("typeID", Json.num 1),
       ("data", Json.obj [("ptzid", Json.num 4)])],
    oid := 3, ot := 1 }

/-- A client whose every request succeeds with `{"count": 7}`. -/
def clientOk : Client := fun _ => .ok (Json.obj [("count", Json.num 7)])

/-- A client whose every request fails with a transport error. -/
def clientFail : Client := fun _ => .error (.clientError "boom")

/-- A client answering every request with a snapshot carrying different
identity fields and no `name` key. -/
def clientNew : Client := fun _ =>
  .ok (Json.obj [("id", Json.num 99), ("typeID", Json.num 4),
    ("data", Json.obj [("online", Json.bool true)])])

theorem lookupKey_setKeyList_self (fs : List (String × Json)) (k : String)
    (v : Json) : lookupKey (setKeyList fs k v) k = some v := by
  induction fs with
  | nil => simp [setKeyList, lookupKey]
  | cons p rest ih =>
      obtain ⟨k1, v1⟩ := p
      by_cases h : k1 = k <;> simp [setKeyList, lookupKey, h, ih]

theorem lookupKey_setKeyList_other (fs : List (String × Json)) (k k2 : String)
    (v : Json) (h : k2 ≠ k) :
    lookupKey (setKeyList fs k v) k2 = lookupKey fs k2 := by
  induction fs with
  | nil => simp [setKeyList, lookupKey, Ne.symm h]
  | cons p rest ih =>
      obtain ⟨k1, v1⟩ := p
      by_cases h1 : k1 = k
      · subst h1
        simp [setKeyList, lookupKey, Ne.symm h]
      · simp [setKeyList, lookupKey, h1, ih]

theorem runCommand_spec (d : Device) (client : Client) (cmd field : String)
    (value : Bool) (fields dfields : List (String × Json)) (j : Json)
    (hraw : d.raw_result = .obj fields)
    (hdata : lookupKey fields "data" = some (.obj dfields))
    (hj : client (commandPath cmd d.oid d.ot) = .ok j) :
    d.runCommand client cmd field value =
      ([commandPath cmd d.oid d.ot],
       { d with raw_result := .obj (setKeyList fields "data"
           (.obj (setKeyList dfields field (.bool value)))) },
       .ok ()) := by
  simp [Device.runCommand, hj, Device.setDataField, hraw, Json.getKeyE,
    hdata, Json.setKey]

theorem runCommand_sets (d : Device) (client : Client) (cmd field : String)
    (value : Bool) (fields dfields : List (String × Json)) (j : Json)
    (hraw : d.raw_result = .obj fields)
    (hdata : lookupKey fields "data" = some (.obj dfields))
    (hj : client (commandPath cmd d.oid d.ot) = .ok j) :
    (d.runCommand client cmd field value).2.2 = .ok ()
    ∧ (d.runCommand client cmd field value).2.1.dataField field
        = .ok (.bool value) := by
  rw [runCommand_spec d client cmd field value fields dfields j hraw hdata hj]
  refine ⟨rfl, ?_⟩
  simp [Device.dataField, Json.getKeyE, lookupKey_setKeyList_self]

theorem setDataField_ids (d : Device) (field : String) (v : Json)
    (d2 : Device) (h : d.setDataField field v = .ok d2) :
    d2.oid = d.oid ∧ d2.ot = d.ot := by
  unfold Device.setDataField at h
  cases hg : d.raw_result.getKeyE "data" with
  | error e => rw [hg] at h; simp at h
  | ok dataVal =>
      rw [hg] at h
      cases dataVal <;> simp at h
      subst h
      exact ⟨rfl, rfl⟩

theorem runCommand_ids (d : Device) (client : Client) (cmd field : String)
    (value : Bool) :
    (d.runCommand client cmd field value).2.1.oid = d.oid
    ∧ (d.runCommand client cmd field value).2.1.ot = d.ot := by
  cases hc : client (commandPath cmd d.oid d.ot) with
  | error e => simp [Device.runCommand, hc]
  | ok j =>
      cases hs : d.setDataField field (.bool value) with
      | error e => simp [Device.runCommand, hc, hs]
      | ok d2 =>
          have h2 := setDataField_ids d field (.bool value) d2 hs
          simp [Device.runCommand, hc, hs, h2.1, h2.2]

/-- Claim C1: for every device whose snapshot holds a `data` object, when
the client request does not fail, `enable` leaves the cached `online`
field true and `disable` leaves it false, whatever its prior value; the
same holds for `record`/`record_stop` on `recording` and for
`alerts_on`/`alerts_off` on `alertsActive`. -/
theorem claim_C1 (d : Device) (client : Client)
    (fields dfields : List (String × Json))
    (hraw : d.raw_result = .obj fields)
    (hdata : lookupKey fields "data" = some (.obj dfields))
    (hok : ∀ p : String, ∃ j, client p = .ok j) :
    ((d.enable client).2.2 = .ok ()
      ∧ (d.enable client).2.1.online = .ok (.bool true))
  ∧ ((d.disable client).2.2 = .ok ()
      ∧ (d.disable client).2.1.online = .ok (.bool false))
  ∧ ((d.record client).2.2 = .ok ()
      ∧ (d.record client).2.1.recording = .ok (.bool true))
  ∧ ((d.record_stop client).2.2 = .ok ()
      ∧ (d.record_stop client).2.1.recording = .ok (.bool false))
  ∧ ((d.alerts_on client).2.2 = .ok ()
      ∧ (d.alerts_on client).2.1.alerts_active = .ok (.bool true))
  ∧ ((d.alerts_off client).2.2 = .ok ()
      ∧ (d.alerts_off client).2.1.alerts_active = .ok (.bool false)) := by
  obtain ⟨j1, h1⟩ := hok (commandPath "switchOn" d.oid d.ot)
  obtain ⟨j2, h2⟩ := hok (commandPath "switchOff" d.oid d.ot)
  obtain ⟨j3, h3⟩ := hok (commandPath "record" d.oid d.ot)
  obtain ⟨j4, h4⟩ := hok (commandPath "recordStop" d.oid d.ot)
  obtain ⟨j5, h5⟩ := hok (commandPath "alertsOn" d.oid d.ot)
  obtain ⟨j6, h6⟩ := hok (commandPath "alertsOff" d.oid d.ot)
  exact ⟨runCommand_sets d client "switchOn" "online" true fields dfields j1
          hraw hdata h1,
        runCommand_sets d client "switchOff" "online" false fields dfields j2
          hraw hdata h2,
        runCommand_sets d client "record" "recording" true fields dfields j3
          hraw hdata h3,
        runCommand_sets d client "recordStop" "recording" false fields dfields
          j4 hraw hdata h4,
        runCommand_sets d client "alertsOn" "alertsActive" true fields dfields
          j5 hraw hdata h5,
        runCommand_sets d client "alertsOff" "alertsActive" false fields
          dfields j6 hraw hdata h6⟩

/-- Witness for claim C1 at the concrete device `dev0` and the always
succeeding client `clientOk`. -/
theorem claim_C1_witness :
    ((dev0.enable clientOk).2.2 = .ok ()
      ∧ (dev0.enable clientOk).2.1.online = .ok (.bool true))
  ∧ ((dev0.disable clientOk).2.2 = .ok ()
      ∧ (dev0.disable clientOk).2.1.online = .ok (.bool false))
  ∧ ((dev0.record clientOk).2.2 = .ok ()
      ∧ (dev0.record clientOk).2.1.recording = .ok (.bool true))
  ∧ ((dev0.record_stop clientOk).2.2 = .ok ()
      ∧ (dev0.record_stop clientOk).2.1.recording = .ok (.bool false))
  ∧ ((dev0.alerts_on clientOk).2.2 = .ok ()
      ∧ (dev0.alerts_on clientOk).2.1.alerts_active = .ok (.bool true))
  ∧ ((dev0.alerts_off clientOk).2.2 = .ok ()
      ∧ (dev0.alerts_off clientOk).2.1.alerts_active = .ok (.bool false)) :=
  claim_C1 dev0 clientOk dev0fields dev0data rfl rfl
    (fun _ => ⟨Json.obj [("count", Json.num 7)], rfl⟩)

/-- Claim C2: `get_events` issues exactly one request, to
`eventcounts.json?oid=..&ot=..&secs=d` where `d` is 3600 for HOUR, 86400
for DAY, 604800 for WEEK, 2592000 for MONTH and 630720000 for ALL (the
fall-through default), and returns the `count` field of the client's
response. -/
theorem claim_C2 (d : Device) (client : Client) (tp : TimePeriod)
    (resp c : Json) (hc : ∀ p, client p = .ok resp)
    (hcount : resp.getKeyE "count" = .ok c) :
    (d.get_events client tp).1 =
      [eventsPath d.oid d.ot
        (match tp with
         | .HOUR => 3600
         | .DAY => 86400
         | .WEEK => 604800
         | .MONTH => 2592000
         | .ALL => 630720000)]
  ∧ (d.get_events client tp).2.2 = .ok c := by
  cases tp <;> simp [Device.get_events, hc, hcount]

/-- Witness for claim C2 at the concrete device `dev0`, the client
`clientOk`, and each of the five time periods. -/
theorem claim_C2_witness :
    ((dev0.get_events clientOk .HOUR).1 = [eventsPath 5 2 3600]
      ∧ (dev0.get_events clientOk .HOUR).2.2 = .ok (Json.num 7))
  ∧ ((dev0.get_events clientOk .DAY).1 = [eventsPath 5 2 86400]
      ∧ (dev0.get_events clientOk .DAY).2.2 = .ok (Json.num 7))
  ∧ ((dev0.get_events clientOk .WEEK).1 = [eventsPath 5 2 604800]
      ∧ (dev0.get_events clientOk .WEEK).2.2 = .ok (Json.num 7))
  ∧ ((dev0.get_events clientOk .MONTH).1 = [eventsPath 5 2 2592000]
      ∧ (dev0.get_events clientOk .MONTH).2.2 = .ok (Json.num 7))
  ∧ ((dev0.get_events clientOk .ALL).1 = [eventsPath 5 2 630720000]
      ∧ (dev0.get_events clientOk .ALL).2.2 = .ok (Json.num 7)) :=
  ⟨claim_C2 dev0 clientOk .HOUR (Json.obj [("count", Json.num 7)])
      (Json.num 7) (fun _ => rfl) rfl,
   claim_C2 dev0 clientOk .DAY (Json.obj [("count", Json.num 7)])
      (Json.num 7) (fun _ => rfl) rfl,
   claim_C2 dev0 clientOk .WEEK (Json.obj [("count", Json.num 7)])
      (Json.num 7) (fun _ => rfl) rfl,
   claim_C2 dev0 clientOk .MONTH (Json.obj [("count", Json.num 7)])
      (Json.num 7) (fun _ => rfl) rfl,
   claim_C2 dev0 clientOk .ALL (Json.obj [("count", Json.num 7)])
      (Json.num 7) (fun _ => rfl) rfl⟩

/-- Claim C3: `has_ptz` is true exactly when the device's `typeID` is 2
and the cached `data.ptzid` is not -1; it is false for any other
`typeID`, and false when `typeID` is 2 but `ptzid` is -1. -/
theorem claim_C3 (d : Device) :
    (d.typeID ≠ 2 → d.has_ptz = .ok false)
  ∧ (∀ p : Json, d.typeID = 2 → d.dataField "ptzid" = .ok p →
      d.has_ptz = .ok (!(p.pyEqInt (-1)))) := by
  constructor
  · intro h
    have h2 : d.ot ≠ 2 := h
    unfold Device.has_ptz
    rw [if_neg h2]
  · intro p h hp
    have h2 : d.ot = 2 := h
    unfold Device.has_ptz
    rw [if_pos h2, hp]

/-- Witness for claim C3: a `typeID = 1` device reports no PTZ, a
`typeID = 2` device with `ptzid = 3` reports PTZ, and a `typeID = 2`
device with `ptzid = -1` reports no PTZ. -/
theorem claim_C3_witness :
    devType1.has_ptz = .ok false
  ∧ dev0.has_ptz = .ok true
  ∧ devMissing.has_ptz = .ok false :=
  ⟨(claim_C3 devType1).1 (by decide),
   (claim_C3 dev0).2 (Json.num 3) rfl rfl,
   (claim_C3 devMissing).2 (Json.num (-1)) rfl rfl⟩

/-- Claim C4: each of the five tokens resolves through
`TimePeriod.get_time_period` to a variant whose `period` is that token and
whose `title` is non-empty; any other string raises a `ValueError` whose
message carries the invalid token. -/
theorem claim_C4 :
    (∀ tok, tok ∈ ["all", "hour", "day", "week", "month"] →
      ∃ tp, TimePeriod.get_time_period tok = .ok tp
        ∧ tp.period = tok ∧ tp.title ≠ "")
  ∧ (∀ s, s ∉ ["all", "hour", "day", "week", "month"] →
      TimePeriod.get_time_period s
        = .error (.valueError (s ++ " is not a valid TimePeriod"))) := by
  constructor
  · intro tok h
    simp only [List.mem_cons, List.not_mem_nil, or_false] at h
    rcases h with rfl | rfl | rfl | rfl | rfl
    · exact ⟨.ALL, rfl, rfl, by decide⟩
    · exact ⟨.HOUR, rfl, rfl, by decide⟩
    · exact ⟨.DAY, rfl, rfl, by decide⟩
    · exact ⟨.WEEK, rfl, rfl, by decide⟩
    · exact ⟨.MONTH, rfl, rfl, by decide⟩
  · intro s h
    simp only [List.mem_cons, List.not_mem_nil, or_false, not_or] at h
    obtain ⟨h1, h2, h3, h4, h5⟩ := h
    have e1 : ("all" == s) = false := beq_eq_false_iff_ne.mpr (Ne.symm h1)
    have e2 : ("hour" == s) = false := beq_eq_false_iff_ne.mpr (Ne.symm h2)
    have e3 : ("day" == s) = false := beq_eq_false_iff_ne.mpr (Ne.symm h3)
    have e4 : ("week" == s) = false := beq_eq_false_iff_ne.mpr (Ne.symm h4)
    have e5 : ("month" == s) = false := beq_eq_false_iff_ne.mpr (Ne.symm h5)
    simp [TimePeriod.get_time_period, TimePeriod.members, List.find?,
      TimePeriod.period, e1, e2, e3, e4, e5]

/-- Witness for claim C4 at the valid token `day` and the invalid token
`xyz`. -/
theorem claim_C4_witness :
    (∃ tp, TimePeriod.get_time_period "day" = .ok tp
      ∧ tp.period = "day" ∧ tp.title ≠ "")
  ∧ TimePeriod.get_time_period "xyz"
      = .error (.valueError ("xyz" ++ " is not a valid TimePeriod")) :=
  ⟨claim_C4.1 "day" (by decide), claim_C4.2 "xyz" (by decide)⟩

/-- Claim C5: when the `getObject` request succeeds, `update` replaces the
cached snapshot entirely with the response: the new snapshot is the
response itself, so every key reads exactly as it does from the response
and nothing is merged over from the old snapshot. -/
theorem claim_C5 (d : Device) (client : Client) (j : Json)
    (hc : client (commandPath "getObject" d.oid d.ot) = .ok j) :
    (d.update client).2.2 = .ok ()
  ∧ (d.update client).2.1.raw_result = j
  ∧ (∀ k, (d.update client).2.1.raw_result.getKey k = j.getKey k) := by
  simp [Device.update, hc]

/-- Witness for claim C5: updating `dev0` against a client whose response
drops the `name` key leaves a snapshot equal to the response (in
particular `name` is gone). -/
theorem claim_C5_witness :
    (dev0.update clientNew).2.2 = .ok ()
  ∧ (dev0.update clientNew).2.1.raw_result
      = Json.obj [("id", Json.num 99), ("typeID", Json.num 4),
          ("data", Json.obj [("online", Json.bool true)])]
  ∧ (∀ k, (dev0.update clientNew).2.1.raw_result.getKey k
      = (Json.obj [("id", Json.num 99), ("typeID", Json.num 4),
          ("data", Json.obj [("online", Json.bool true)])]).getKey k) :=
  claim_C5 dev0 clientNew _ rfl

theorem make_eq (raw : Json) (d : Device) (i t : Int)
    (hid : raw.getKey "id" = some (.num i))
    (ht : raw.getKey "typeID" = some (.num t))
    (hmk : Device.make raw = .ok d) :
    d = { raw_result := raw, oid := i, ot := t } := by
  cases raw with
  | obj fields =>
      simp only [Json.getKey] at hid ht
      simp [Device.make, Json.getKeyE, hid, ht, Json.toPyInt] at hmk
      exact hmk.symm
  | null => simp [Json.getKey] at hid
  | bool b => simp [Json.getKey] at hid
  | num n => simp [Json.getKey] at hid
  | str s => simp [Json.getKey] at hid
  | arr xs => simp [Json.getKey] at hid

theorem update_ids (d : Device) (client : Client) :
    (d.update client).2.1.oid = d.oid ∧ (d.update client).2.1.ot = d.ot := by
  cases hc : client (commandPath "getObject" d.oid d.ot) <;>
    simp [Device.update, hc]

theorem get_events_device (d : Device) (client : Client) (tp : TimePeriod) :
    (d.get_events client tp).2.1 = d := by
  unfold Device.get_events
  repeat' split
  all_goals
    (dsimp only
     split
     · rfl
     · split <;> rfl)

/-- Claim C6: `id` and `typeID` always return the integers drawn from the
construction-time snapshot; no operation, `update` included (even when the
response carries different `id`/`typeID` values), changes them. -/
theorem claim_C6 (raw : Json) (d : Device) (client : Client) (i t : Int)
    (hid : raw.getKey "id" = some (.num i))
    (ht : raw.getKey "typeID" = some (.num t))
    (hmk : Device.make raw = .ok d) :
    (d.id = i ∧ d.typeID = t)
  ∧ ((d.update client).2.1.id = i ∧ (d.update client).2.1.typeID = t)
  ∧ ((d.enable client).2.1.id = i ∧ (d.enable client).2.1.typeID = t)
  ∧ ((d.disable client).2.1.id = i ∧ (d.disable client).2.1.typeID = t)
  ∧ ((d.record client).2.1.id = i ∧ (d.record client).2.1.typeID = t)
  ∧ ((d.record_stop client).2.1.id = i
      ∧ (d.record_stop client).2.1.typeID = t)
  ∧ ((d.alerts_on client).2.1.id = i ∧ (d.alerts_on client).2.1.typeID = t)
  ∧ ((d.alerts_off client).2.1.id = i
      ∧ (d.alerts_off client).2.1.typeID = t)
  ∧ (∀ tp, (d.get_events client tp).2.1.id = i
      ∧ (d.get_events client tp).2.1.typeID = t) := by
  have hd := make_eq raw d i t hid ht hmk
  subst hd
  refine ⟨⟨rfl, rfl⟩, update_ids _ client, ?_, ?_, ?_, ?_, ?_, ?_, ?_⟩
  · exact runCommand_ids _ client "switchOn" "online" true
  · exact runCommand_ids _ client "switchOff" "online" false
  · exact runCommand_ids _ client "record" "recording" true
  · exact runCommand_ids _ client "recordStop" "recording" false
  · exact runCommand_ids _ client "alertsOn" "alertsActive" true
  · exact runCommand_ids _ client "alertsOff" "alertsActive" false
  · intro tp
    rw [get_events_device _ client tp]
    exact ⟨rfl, rfl⟩

/-- Witness for claim C6: `dev0` was built from a snapshot with `id = 5`,
`typeID = 2`; running every operation against a client answering with
`id = 99`, `typeID = 4` leaves `id` and `typeID` at 5 and 2. -/
theorem claim_C6_witness :
    (dev0.id = 5 ∧ dev0.typeID = 2)
  ∧ ((dev0.update clientNew).2.1.id = 5
      ∧ (dev0.update clientNew).2.1.typeID = 2)
  ∧ ((dev0.enable clientNew).2.1.id = 5
      ∧ (dev0.enable clientNew).2.1.typeID = 2)
  ∧ ((dev0.disable clientNew).2.1.id = 5
      ∧ (dev0.disable clientNew).2.1.typeID = 2)
  ∧ ((dev0.record clientNew).2.1.id = 5
      ∧ (dev0.record clientNew).2.1.typeID = 2)
  ∧ ((dev0.record_stop clientNew).2.1.id = 5
      ∧ (dev0.record_stop clientNew).2.1.typeID = 2)
  ∧ ((dev0.alerts_on clientNew).2.1.id = 5
      ∧ (dev0.alerts_on clientNew).2.1.typeID = 2)
  ∧ ((dev0.alerts_off clientNew).2.1.id = 5
      ∧ (dev0.alerts_off clientNew).2.1.typeID = 2)
  ∧ (∀ tp, (dev0.get_events clientNew tp).2.1.id = 5
      ∧ (dev0.get_events clientNew tp).2.1.typeID = 2) :=
  claim_C6 (Json.obj dev0fields) dev0 clientNew 5 2 rfl rfl rfl

/-- Claim C7: when the underlying client request fails, the failure
propagates unchanged to the caller and the cached snapshot is exactly what
it was before the call, for each of the six commands, for `update`, and
for `get_events`. -/
theorem claim_C7 (d : Device) (client : Client) (e : PyError)
    (hc : ∀ p, client p = .error e) :
    d.enable client = ([commandPath "switchOn" d.oid d.ot], d, .error e)
  ∧ d.disable client = ([commandPath "switchOff" d.oid d.ot], d, .error e)
  ∧ d.record client = ([commandPath "record" d.oid d.ot], d, .error e)
  ∧ d.record_stop client
      = ([commandPath "recordStop" d.oid d.ot], d, .error e)
  ∧ d.alerts_on client = ([commandPath "alertsOn" d.oid d.ot], d, .error e)
  ∧ d.alerts_off client = ([commandPath "alertsOff" d.oid d.ot], d, .error e)
  ∧ d.update client = ([commandPath "getObject" d.oid d.ot], d, .error e)
  ∧ ∀ tp, (d.get_events client tp).2.1 = d
      ∧ (d.get_events client tp).2.2 = .error e := by
  refine ⟨?_, ?_, ?_, ?_, ?_, ?_, ?_, ?_⟩
  · simp [Device.enable, Device.runCommand, hc]
  · simp [Device.disable, Device.runCommand, hc]
  · simp [Device.record, Device.runCommand, hc]
  · simp [Device.record_stop, Device.runCommand, hc]
  · simp [Device.alerts_on, Device.runCommand, hc]
  · simp [Device.alerts_off, Device.runCommand, hc]
  · simp [Device.update, hc]
  · intro tp
    cases tp <;> simp [Device.get_events, hc]

/-- Witness for claim C7 at `dev0` against the always-failing client
`clientFail`: every operation surfaces the transport error untouched and
leaves the device as it was. -/
theorem claim_C7_witness :
    dev0.enable clientFail
      = ([commandPath "switchOn" 5 2], dev0, .error (.clientError "boom"))
  ∧ dev0.disable clientFail
      = ([commandPath "switchOff" 5 2], dev0, .error (.clientError "boom"))
  ∧ dev0.record clientFail
      = ([commandPath "record" 5 2], dev0, .error (.clientError "boom"))
  ∧ dev0.record_stop clientFail
      = ([commandPath "recordStop" 5 2], dev0, .error (.clientError "boom"))
  ∧ dev0.alerts_on clientFail
      = ([commandPath "alertsOn" 5 2], dev0, .error (.clientError "boom"))
  ∧ dev0.alerts_off clientFail
      = ([commandPath "alertsOff" 5 2], dev0, .error (.clientError "boom"))
  ∧ dev0.update clientFail
      = ([commandPath "getObject" 5 2], dev0, .error (.clientError "boom"))
  ∧ ∀ tp, (dev0.get_events clientFail tp).2.1 = dev0
      ∧ (dev0.get_events clientFail tp).2.2
          = .error (.clientError "boom") :=
  claim_C7 dev0 clientFail (.clientError "boom") (fun _ => rfl)

/-- Claim C8 counterexample: `devMissing`'s data block omits `recording`,
`alerted`, `online` and `alertsActive`; each corresponding accessor then
fails with a `KeyError` instead of returning an absent/unknown value. -/
theorem claim_C8_counterexample :
    devMissing.recording = .error (.keyError "recording")
  ∧ devMissing.alerted = .error (.keyError "alerted")
  ∧ devMissing.online = .error (.keyError "online")
  ∧ devMissing.alerts_active = .error (.keyError "alertsActive") :=
  ⟨rfl, rfl, rfl, rfl⟩

theorem dataField_of_obj (d : Device) (dfields : List (String × Json))
    (hdata : d.raw_result.getKeyE "data" = .ok (.obj dfields)) (k : String) :
    d.dataField k =
      match lookupKey dfields k with
      | some v => .ok v
      | none => .error (.keyError k) := by
  unfold Device.dataField
  rw [hdata]
  rfl

/-- Claim C8 amended: when the cached data block omits one of the keys
`recording`, `alerted`, `online`, `alertsActive`, the corresponding
accessor fails with a `KeyError` naming that key; the accessor returns a
value (the unknown state only as an explicit JSON `null`) exactly when the
key is present. -/
theorem claim_C8_amended (d : Device) (dfields : List (String × Json))
    (hdata : d.raw_result.getKeyE "data" = .ok (.obj dfields)) :
    (lookupKey dfields "recording" = none →
      d.recording = .error (.keyError "recording"))
  ∧ (lookupKey dfields "alerted" = none →
      d.alerted = .error (.keyError "alerted"))
  ∧ (lookupKey dfields "online" = none →
      d.online = .error (.keyError "online"))
  ∧ (lookupKey dfields "alertsActive" = none →
      d.alerts_active = .error (.keyError "alertsActive"))
  ∧ (∀ v, lookupKey dfields "recording" = some v → d.recording = .ok v)
  ∧ (∀ v, lookupKey dfields "alerted" = some v → d.alerted = .ok v)
  ∧ (∀ v, lookupKey dfields "online" = some v → d.online = .ok v)
  ∧ (∀ v, lookupKey dfields "alertsActive" = some v →
      d.alerts_active = .ok v) := by
  have he := dataField_of_obj d dfields hdata
  refine ⟨?_, ?_, ?_, ?_, ?_, ?_, ?_, ?_⟩ <;> intro v
  · simp [Device.recording, he, v]
  · simp [Device.alerted, he, v]
  · simp [Device.online, he, v]
  · simp [Device.alerts_active, he, v]
  · intro hv
    simp [Device.recording, he, hv]
  · intro hv
    simp [Device.alerted, he, hv]
  · intro hv
    simp [Device.online, he, hv]
  · intro hv
    simp [Device.alerts_active, he, hv]

/-- Witness for the amended claim C8: `devMissing` raises `KeyError` on
`online`, while `dev0`, whose data block holds the key, reads it. -/
theorem claim_C8_witness :
    devMissing.online = .error (.keyError "online")
  ∧ dev0.online = .ok (.bool false) :=
  ⟨(claim_C8_amended devMissing [("ptzid", Json.num (-1))] rfl).2.2.1 rfl,
   (claim_C8_amended dev0 dev0data rfl).2.2.2.2.2.2.1 (.bool false) rfl⟩

theorem runCommand_frame (d : Device) (client : Client) (cmd field : String)
    (value : Bool) (fields dfields : List (String × Json)) (j : Json)
    (hraw : d.raw_result = .obj fields)
    (hdata : lookupKey fields "data" = some (.obj dfields))
    (hj : client (commandPath cmd d.oid d.ot) = .ok j) :
    commandFrameOK d dfields field value
      (d.runCommand client cmd field value) := by
  rw [runCommand_spec d client cmd field value fields dfields j hraw hdata hj]
  refine ⟨rfl, rfl, rfl, ?_, setKeyList dfields field (.bool value), ?_,
    lookupKey_setKeyList_self dfields field (.bool value), ?_⟩
  · intro k hk
    simp only [Json.getKey, hraw]
    exact lookupKey_setKeyList_other fields "data" k _ hk
  · simp only [Json.getKey]
    exact lookupKey_setKeyList_self fields "data" _
  · intro k2 hk2
    exact lookupKey_setKeyList_other dfields field k2 _ hk2

/-- Claim C9: each of the six commands issues exactly one client request
and modifies exactly one field of the cached data block (`online`,
`recording` or `alertsActive`); every other snapshot key, and the `id` and
`typeID` identity fields, are unchanged. -/
theorem claim_C9 (d : Device) (client : Client)
    (fields dfields : List (String × Json))
    (hraw : d.raw_result = .obj fields)
    (hdata : lookupKey fields "data" = some (.obj dfields))
    (hok : ∀ p : String, ∃ j, client p = .ok j) :
    commandFrameOK d dfields "online" true (d.enable client)
  ∧ commandFrameOK d dfields "online" false (d.disable client)
  ∧ commandFrameOK d dfields "recording" true (d.record client)
  ∧ commandFrameOK d dfields "recording" false (d.record_stop client)
  ∧ commandFrameOK d dfields "alertsActive" true (d.alerts_on client)
  ∧ commandFrameOK d dfields "alertsActive" false (d.alerts_off client) := by
  obtain ⟨j1, h1⟩ := hok (commandPath "switchOn" d.oid d.ot)
  obtain ⟨j2, h2⟩ := hok (commandPath "switchOff" d.oid d.ot)
  obtain ⟨j3, h3⟩ := hok (commandPath "record" d.oid d.ot)
  obtain ⟨j4, h4⟩ := hok (commandPath "recordStop" d.oid d.ot)
  obtain ⟨j5, h5⟩ := hok (commandPath "alertsOn" d.oid d.ot)
  obtain ⟨j6, h6⟩ := hok (commandPath "alertsOff" d.oid d.ot)
  exact ⟨runCommand_frame d client "switchOn" "online" true fields dfields j1
          hraw hdata h1,
        runCommand_frame d client "switchOff" "online" false fields dfields
          j2 hraw hdata h2,
        runCommand_frame d client "record" "recording" true fields dfields j3
          hraw hdata h3,
        runCommand_frame d client "recordStop" "recording" false fields
          dfields j4 hraw hdata h4,
        runCommand_frame d client "alertsOn" "alertsActive" true fields
          dfields j5 hraw hdata h5,
        runCommand_frame d client "alertsOff" "alertsActive" false fields
          dfields j6 hraw hdata h6⟩

/-- Witness for claim C9 at the concrete device `dev0` and the always
succeeding client `clientOk`. -/
theorem claim_C9_witness :
    commandFrameOK dev0 dev0data "online" true (dev0.enable clientOk)
  ∧ commandFrameOK dev0 dev0data "online" false (dev0.disable clientOk)
  ∧ commandFrameOK dev0 dev0data "recording" true (dev0.record clientOk)
  ∧ commandFrameOK dev0 dev0data "recording" false
      (dev0.record_stop clientOk)
  ∧ commandFrameOK dev0 dev0data "alertsActive" true
      (dev0.alerts_on clientOk)
  ∧ commandFrameOK dev0 dev0data "alertsActive" false
      (dev0.alerts_off clientOk) :=
  claim_C9 dev0 clientOk dev0fields dev0data rfl rfl
    (fun _ => ⟨Json.obj [("count", Json.num 7)], rfl⟩)

theorem runCommand_nodata (d : Device) (client : Client) (cmd field : String)
    (value : Bool) (fields : List (String × Json)) (j : Json)
    (hraw : d.raw_result = .obj fields)
    (hnodata : lookupKey fields "data" = none)
    (hj : client (commandPath cmd d.oid d.ot) = .ok j) :
    d.runCommand client cmd field value
      = ([commandPath cmd d.oid d.ot], d, .error (.keyError "data")) := by
  simp [Device.runCommand, hj, Device.setDataField, hraw, Json.getKeyE,
    hnodata]

/-- Claim C10: for a device whose snapshot has no `data` key, each of the
six commands still issues its one client request and then fails with a
`KeyError` on `data` during the cache update, leaving the snapshot
untouched: the remote command was sent although the cache never changed. -/
theorem claim_C10 (d : Device) (client : Client)
    (fields : List (String × Json))
    (hraw : d.raw_result = .obj fields)
    (hnodata : lookupKey fields "data" = none)
    (hok : ∀ p : String, ∃ j, client p = .ok j) :
    d.enable client
      = ([commandPath "switchOn" d.oid d.ot], d, .error (.keyError "data"))
  ∧ d.disable client
      = ([commandPath "switchOff" d.oid d.ot], d, .error (.keyError "data"))
  ∧ d.record client
      = ([commandPath "record" d.oid d.ot], d, .error (.keyError "data"))
  ∧ d.record_stop client
      = ([commandPath "recordStop" d.oid d.ot], d, .error (.keyError "data"))
  ∧ d.alerts_on client
      = ([commandPath "alertsOn" d.oid d.ot], d, .error (.keyError "data"))
  ∧ d.alerts_off client
      = ([commandPath "alertsOff" d.oid d.ot], d,
         .error (.keyError "data")) := by
  obtain ⟨j1, h1⟩ := hok (commandPath "switchOn" d.oid d.ot)
  obtain ⟨j2, h2⟩ := hok (commandPath "switchOff" d.oid d.ot)
  obtain ⟨j3, h3⟩ := hok (commandPath "record" d.oid d.ot)
  obtain ⟨j4, h4⟩ := hok (commandPath "recordStop" d.oid d.ot)
  obtain ⟨j5, h5⟩ := hok (commandPath "alertsOn" d.oid d.ot)
  obtain ⟨j6, h6⟩ := hok (commandPath "alertsOff" d.oid d.ot)
  exact ⟨runCommand_nodata d client "switchOn" "online" true fields j1
          hraw hnodata h1,
        runCommand_nodata d client "switchOff" "online" false fields j2
          hraw hnodata h2,
        runCommand_nodata d client "record" "recording" true fields j3
          hraw hnodata h3,
        runCommand_nodata d client "recordStop" "recording" false fields j4
          hraw hnodata h4,
        runCommand_nodata d client "alertsOn" "alertsActive" true fields j5
          hraw hnodata h5,
        runCommand_nodata d client "alertsOff" "alertsActive" false fields
          j6 hraw hnodata h6⟩

/-- Witness for claim C10 at the concrete device `devNoData`, whose
snapshot has no `data` key, against the always succeeding `clientOk`. -/
theorem claim_C10_witness :
    devNoData.enable clientOk
      = ([commandPath "switchOn" 9 1], devNoData, .error (.keyError "data"))
  ∧ devNoData.disable clientOk
      = ([commandPath "switchOff" 9 1], devNoData, .error (.keyError "data"))
  ∧ devNoData.record clientOk
      = ([commandPath "record" 9 1], devNoData, .error (.keyError "data"))
  ∧ devNoData.record_stop clientOk
      = ([commandPath "recordStop" 9 1], devNoData,
         .error (.keyError "data"))
  ∧ devNoData.alerts_on clientOk
      = ([commandPath "alertsOn" 9 1], devNoData, .error (.keyError "data"))
  ∧ devNoData.alerts_off clientOk
      = ([commandPath "alertsOff" 9 1], devNoData,
         .error (.keyError "data")) :=
  claim_C10 devNoData clientOk
    [("id", Json.num 9), ("typeID", Json.num 1)] rfl rfl
    (fun _ => ⟨Json.obj [("count", Json.num 7)], rfl⟩)

end Agent
